import Mathlib

/-!
# pgrok: `internal/database/db.go`

A shallow embedding of the database bootstrap (`New`) and of the GORM logging
adapter (`gormLogger.Printf`), followed by the properties of the
specification that are checked against it.

Conventions of the embedding:

* Go strings are Lean `String`s (texts of valid UTF-8).
* Go's `error` interface values are `Option error`; `none` is `nil`.
* Machine integers are unbounded `Int`s. The only arithmetic in the file is
  on instants of the system clock and on the constants 30, 1000 and 60, all
  far from the 64-bit limits.
* Code that lives outside the repository (the Go standard library, GORM,
  charmbracelet/log, pkg/errors, flamego) is either a parameter of the
  embedding (`Runtime`) or modelled from its documented behaviour, and says so
  in its doc comment.
* The effects of `New` on the outside are recorded in a `World`: the
  process-wide GORM logger, the settings of the connection pool and the trace
  of the operations requested from the storage runtime, in order.
-/

set_option linter.dupNamespace false

namespace Pgrok

/-! ## Values passed to `fmt` -/

/-- Go values of type `any` as they reach `fmt.Sprintf`: a `string`, an `int`,
or a value of another dynamic type (identified by a number). -/
inductive Any where
  | str (s : String)
  | int (n : Int)
  | other (id : Nat)
deriving DecidableEq, Repr

/-- The ASCII apostrophe, the byte that delimits the values of a connection
descriptor. -/
def quote : Char := Char.ofNat 39

/-- The decimal digit `byte('0' + d)` of `d`, for `d` below ten. -/
def digitByte : Nat → Char
  | 0 => '0' | 1 => '1' | 2 => '2' | 3 => '3' | 4 => '4'
  | 5 => '5' | 6 => '6' | 7 => '7' | 8 => '8' | _ => '9'

/-- The decimal digits of `u`, most significant first, as `fmt` writes them
for the verb `%d`: the last digit is `u % 10` and the digits before it are
those of `u / 10`, until the value is below ten. The first argument bounds the
number of digits; `u + 1` is always enough. -/
def fmtDigits : Nat → Nat → List Char
  | 0, _ => []
  | fuel + 1, u =>
    if u < 10 then [digitByte u] else fmtDigits fuel (u / 10) ++ [digitByte (u % 10)]

/-- The text `fmt` writes for a signed integer under `%d`: a minus sign for a
negative value, then the decimal digits of the magnitude. -/
def fmtInteger (v : Int) : List Char :=
  if v < 0 then '-' :: fmtDigits (v.natAbs + 1) v.natAbs
  else fmtDigits (v.natAbs + 1) v.natAbs

/-- The formatting loop of `fmt.Sprintf` on the fragment of the format
language used by this package: literal text is copied, `%%` writes a percent
sign, `%s` and `%v` write a string operand verbatim, `%d` and `%v` write an
integer operand in decimal. Every other directive (flags, widths, other verbs,
a verb applied to an operand of another type, a missing or a surplus operand)
is outside the fragment and yields `none`. -/
def fmt.doPrintf : List Char → List Any → Option (List Char)
  | [], a => if a = [] then some [] else none
  | c :: rest, a =>
    if c ≠ '%' then (fmt.doPrintf rest a).map (fun out => c :: out)
    else
      match rest with
      | [] => none
      | verb :: rest =>
        if verb = '%' then (fmt.doPrintf rest a).map (fun out => '%' :: out)
        else
          match a with
          | Any.str s :: a =>
            if verb = 's' ∨ verb = 'v' then (fmt.doPrintf rest a).map (fun out => s.data ++ out)
            else none
          | Any.int n :: a =>
            if verb = 'd' ∨ verb = 'v' then
              (fmt.doPrintf rest a).map (fun out => fmtInteger n ++ out)
            else none
          | _ => none

/-- The library function `fmt.Sprintf` on the modelled fragment; `none` when
the format or the operands leave the fragment. -/
def fmt.Sprintf (format : String) (a : List Any) : Option String :=
  (fmt.doPrintf format.data a).map String.mk

/-- A renderer agrees with `fmt.Sprintf` wherever the fragment defines it. The
renderer that the program really calls is the library's, which is such a
function. -/
def Renders (sp : String → List Any → String) : Prop :=
  ∀ format a s, fmt.Sprintf format a = some s → sp format a = s

/-! ## `strings` -/

/-- The library test `strings.HasPrefix` on character lists. -/
def strings.hasPrefixList : List Char → List Char → Bool
  | _, [] => true
  | [], _ :: _ => false
  | c :: s, p :: ps => c == p && strings.hasPrefixList s ps

/-- The search of `strings.Contains` on character lists: `substr` starts at
some position of `s`. -/
def strings.containsList : List Char → List Char → Bool
  | [], substr => strings.hasPrefixList [] substr
  | c :: s, substr => strings.hasPrefixList (c :: s) substr || strings.containsList s substr

/-- The library function `strings.Contains(s, substr)`. -/
def strings.Contains (s substr : String) : Bool :=
  strings.containsList s.data substr.data

/-! ## `charmbracelet/log` -/

/-- An output sink (`io.Writer`), identified by a descriptor. -/
structure io.Writer where
  fd : Nat
deriving DecidableEq, Repr

/-- The levels of `charmbracelet/log`. -/
inductive log.Level where
  | DebugLevel
  | InfoLevel
  | WarnLevel
  | ErrorLevel
  | FatalLevel
deriving DecidableEq, Repr

/-- The fields of `log.Options` that `New` sets. -/
structure log.Options where
  TimeFormat : String
  Level : log.Level
  Prefix : String
  ReportTimestamp : Bool
deriving DecidableEq, Repr

/-- One call received by a structured logger: the level of the method that
was called and the message it was given. -/
structure log.Event where
  level : log.Level
  msg : String
deriving DecidableEq, Repr

/-- A `*log.Logger`: its sink, its options and the calls it has received so
far, oldest first. -/
structure log.Logger where
  w : io.Writer
  o : log.Options
  events : List log.Event
deriving DecidableEq, Repr

/-- The constructor `log.NewWithOptions(w, o)`: a logger that has received
nothing yet. -/
def log.NewWithOptions (w : io.Writer) (o : log.Options) : log.Logger :=
  { w := w, o := o, events := [] }

/-- The method `(*log.Logger).Debug(msg)`. -/
def log.Logger.Debug (l : log.Logger) (msg : String) : log.Logger :=
  { l with events := l.events ++ [⟨log.Level.DebugLevel, msg⟩] }

/-- The method `(*log.Logger).Error(msg)`. -/
def log.Logger.Error (l : log.Logger) (msg : String) : log.Logger :=
  { l with events := l.events ++ [⟨log.Level.ErrorLevel, msg⟩] }

/-- The layout constant `time.DateTime`. -/
def time.DateTime : String := "2006-01-02 15:04:05"

/-! ## The logging adapter -/

/-- The adapter `gormLogger`: a wrapper of a `*log.Logger` for GORM's
`logger.Writer`. -/
structure gormLogger where
  Logger : log.Logger
deriving DecidableEq, Repr

/-- The method `(*gormLogger).Printf(format, args...)`, with the renderer
`fmt.Sprintf` as the parameter `Sprintf`: the message is rendered, `print` is
`l.Debug` unless the message contains `[error]`, in which case it is
`l.Error`, and `print(msg)` is called. -/
def gormLogger.Printf (Sprintf : String → List Any → String) (l : gormLogger)
    (format : String) (args : List Any) : gormLogger :=
  let msg := Sprintf format args
  if strings.Contains msg "[error]" then { l with Logger := l.Logger.Error msg }
  else { l with Logger := l.Logger.Debug msg }

/-! ## `time` -/

/-- A `time.Duration`: a count of nanoseconds. -/
abbrev time.Duration := Int

/-- The constant `time.Nanosecond`. -/
def time.Nanosecond : time.Duration := 1

/-- The constant `time.Microsecond`. -/
def time.Microsecond : time.Duration := 1000 * time.Nanosecond

/-- The constant `time.Millisecond`. -/
def time.Millisecond : time.Duration := 1000 * time.Microsecond

/-- The constant `time.Second`. -/
def time.Second : time.Duration := 1000 * time.Millisecond

/-- The constant `time.Minute`. -/
def time.Minute : time.Duration := 60 * time.Second

/-- The location a `time.Time` is presented in. -/
inductive time.Location where
  | UTC
  | Local
  | Fixed (offsetSeconds : Int)
deriving DecidableEq, Repr

/-- A `time.Time`: the seconds elapsed since January 1 of year 1, 00:00:00
UTC, the nanoseconds within that second, the reading of the monotonic clock
when the instant carries one, and the presentation location. -/
structure time.Time where
  sec : Int
  nsec : Int
  mono : Option Int
  loc : time.Location
deriving DecidableEq, Repr

/-- The nanosecond field of a `time.Time` is within one second. Every value
the `time` package produces satisfies it. -/
def time.Time.WellFormed (t : time.Time) : Prop :=
  0 ≤ t.nsec ∧ t.nsec < 1000000000

/-- The nanoseconds elapsed at `t` since the zero time. -/
def time.Time.nanos (t : time.Time) : Int :=
  t.sec * 1000000000 + t.nsec

/-- The library's `stripMono`: the monotonic clock reading is dropped. -/
def time.Time.stripMono (t : time.Time) : time.Time :=
  { t with mono := none }

/-- The method `Time.UTC()`: the same instant with the location set to UTC;
setting a location strips the monotonic clock reading. -/
def time.Time.UTC (t : time.Time) : time.Time :=
  { t.stripMono with loc := time.Location.UTC }

/-- The remainder computed by the library's `div(t, d)` for `d > 0`: the
absolute time of `t` modulo `d`. It works on the magnitude of a negative time
and corrects the remainder at the end; the two special cases are those of the
library (`2d` divides one second; `d` is a multiple of one second), and the
general case, done there in 128-bit arithmetic, is the remainder of the
nanosecond count. -/
def time.div (t : time.Time) (d : time.Duration) : time.Duration :=
  let neg : Bool := decide (t.sec < 0)
  let flip : Bool := neg && decide (-t.nsec < 0)
  let nsec : Int := if neg then (if flip then -t.nsec + 1000000000 else -t.nsec) else t.nsec
  let sec : Int := if neg then (if flip then -t.sec - 1 else -t.sec) else t.sec
  let r : time.Duration :=
    if d < time.Second ∧ time.Second.tmod (d + d) = 0 then nsec.tmod d
    else if d.tmod time.Second = 0 then
      sec.tmod (d.tdiv time.Second) * time.Second + nsec
    else (sec * 1000000000 + nsec).tmod d
  if neg ∧ r ≠ 0 then d - r else r

/-- The method `Time.Add(d)`: the seconds and nanoseconds of `d` are added
field by field, the nanosecond field is brought back within one second, and a
monotonic reading, when present, moves by `d`. -/
def time.Time.Add (t : time.Time) (d : time.Duration) : time.Time :=
  let dsec : Int := d.tdiv 1000000000
  let nsec : Int := t.nsec + d.tmod 1000000000
  let dsec1 : Int := if nsec ≥ 1000000000 then dsec + 1 else if nsec < 0 then dsec - 1 else dsec
  let nsec1 : Int :=
    if nsec ≥ 1000000000 then nsec - 1000000000
    else if nsec < 0 then nsec + 1000000000 else nsec
  { t with sec := t.sec + dsec1, nsec := nsec1, mono := t.mono.map (fun m => m + d) }

/-- The method `Time.Truncate(d)`: the monotonic reading is stripped and, for
a positive `d`, `t` is rounded down to a multiple of `d` since the zero
time. -/
def time.Time.Truncate (t : time.Time) (d : time.Duration) : time.Time :=
  let t := t.stripMono
  if d ≤ 0 then t else t.Add (-(time.div t d))

/-! ## `pkg/errors` -/

/-- Error values. A `fundamental` error has a message and no cause: it is made
by `errors.New`, or it is an error of another package known by its message.
`withMessage` and `withStack` are the two layers `errors.Wrap` adds (the
recorded call stack itself is not modelled). -/
inductive error where
  | fundamental (msg : String)
  | withMessage (cause : error) (msg : String)
  | withStack (err : error)
deriving DecidableEq, Repr

/-- The method `Error()`: the message of an error. A `withMessage` prints its
own message, a colon and a space, then the message of its cause. -/
def error.Error : error → String
  | error.fundamental msg => msg
  | error.withMessage cause msg => msg ++ ": " ++ cause.Error
  | error.withStack err => err.Error

/-- The method `Unwrap()` of the wrapping layers: the error directly below. -/
def error.Unwrap : error → Option error
  | error.fundamental _ => none
  | error.withMessage cause _ => some cause
  | error.withStack err => some err

/-- The function `errors.Cause`: the innermost error, reached by following
the causes. -/
def errors.Cause : error → error
  | error.fundamental msg => error.fundamental msg
  | error.withMessage cause _ => errors.Cause cause
  | error.withStack err => errors.Cause err

/-- The function `errors.New(message)`. -/
def errors.New (message : String) : Option error :=
  some (error.fundamental message)

/-- The function `errors.Wrap(err, message)`: `nil` for a `nil` error,
otherwise the error annotated with the message and with a stack. -/
def errors.Wrap (err : Option error) (message : String) : Option error :=
  match err with
  | none => none
  | some e => some (error.withStack (error.withMessage e message))

/-! ## `flamego` and GORM's `logger` -/

/-- The type `flamego.EnvType`, a string. -/
abbrev flamego.EnvType := String

/-- The constant `flamego.EnvTypeProd`. -/
def flamego.EnvTypeProd : flamego.EnvType := "production"

/-- The levels of GORM's `logger.LogLevel`, in increasing verbosity. -/
inductive logger.LogLevel where
  | Silent
  | Error
  | Warn
  | Info
deriving DecidableEq, Repr

/-- The fields of `logger.Config` that `New` sets. -/
structure logger.Config where
  SlowThreshold : time.Duration
  LogLevel : logger.LogLevel
deriving DecidableEq, Repr

/-- The value of a GORM `logger.Interface` built by `logger.New`: the writer
it prints through and its configuration. -/
structure logger.Interface where
  Writer : gormLogger
  Config : logger.Config
deriving DecidableEq, Repr

/-- The constructor `logger.New(writer, config)`. -/
def logger.New (writer : gormLogger) (config : logger.Config) : logger.Interface :=
  { Writer := writer, Config := config }

/-! ## Configuration, pool and storage runtime -/

/-- Modelled from the spec: the type `conf.Database`, declared in
`internal/conf`, with the fields the specification lists (host, port, user,
password and database name; the port is an integer, the others strings). -/
structure conf.Database where
  Host : String
  Port : Int
  User : String
  Password : String
  Database : String
deriving DecidableEq, Repr

/-- Modelled from the spec: the entity set, the two record types `Principal`
and `HostKey` handed to schema reconciliation. They are declared in other
files of the package; only their identity and order matter here. -/
inductive Model where
  | Principal
  | HostKey
deriving DecidableEq, Repr

/-- The pool settings of a `*sql.DB` as `database/sql` keeps them: `maxOpen`
(zero or less means unlimited), `maxIdleCount` (zero means the default of two,
negative means none) and `maxLifetime`. -/
structure sql.DB where
  maxOpen : Int
  maxIdleCount : Int
  maxLifetime : time.Duration
deriving DecidableEq, Repr

/-- The library's `maxIdleConnsLocked`: the effective limit of idle
connections. -/
def sql.DB.maxIdleConnsLocked (db : sql.DB) : Int :=
  if db.maxIdleCount = 0 then 2
  else if db.maxIdleCount < 0 then 0
  else db.maxIdleCount

/-- The method `(*sql.DB).SetMaxIdleConns(n)`: the idle limit is `n` (none
when `n` is not positive), lowered to the open limit when that one is set and
smaller. -/
def sql.DB.SetMaxIdleConns (db : sql.DB) (n : Int) : sql.DB :=
  let db1 : sql.DB := { db with maxIdleCount := if n > 0 then n else -1 }
  if db1.maxOpen > 0 ∧ db1.maxIdleConnsLocked > db1.maxOpen then
    { db1 with maxIdleCount := db1.maxOpen }
  else db1

/-- The method `(*sql.DB).SetMaxOpenConns(n)`: the open limit is `n` (zero
when `n` is negative), and the idle limit is lowered to it when it exceeds
it. -/
def sql.DB.SetMaxOpenConns (db : sql.DB) (n : Int) : sql.DB :=
  let db1 : sql.DB := { db with maxOpen := if n < 0 then 0 else n }
  if db1.maxOpen > 0 ∧ db1.maxIdleConnsLocked > db1.maxOpen then db1.SetMaxIdleConns n
  else db1

/-- The method `(*sql.DB).SetConnMaxLifetime(d)`: a negative `d` counts as
zero. -/
def sql.DB.SetConnMaxLifetime (db : sql.DB) (d : time.Duration) : sql.DB :=
  { db with maxLifetime := if d < 0 then 0 else d }

/-- The fields of `gorm.Config` that `New` sets. `NowFunc` takes the reading
of the system clock (`time.Now()`) as its argument. -/
structure gorm.Config where
  SkipDefaultTransaction : Bool
  NowFunc : time.Time → time.Time

/-- A `*gorm.DB` as returned by `gorm.Open`: the descriptor given to the
driver and the session configuration. -/
structure gorm.DB where
  dsn : String
  Config : gorm.Config

/-- The database handle `DB`, which embeds a `*gorm.DB`. -/
structure DB where
  DB : gorm.DB

/-- The operations `New` requests from the storage runtime. -/
inductive Op where
  | InstallLogger (l : logger.Interface)
  | Open (dsn : String) (config : gorm.Config)
  | DB
  | SetMaxOpenConns (n : Int)
  | SetMaxIdleConns (n : Int)
  | SetConnMaxLifetime (d : time.Duration)
  | AutoMigrate (dst : List Model)

/-- Whether an operation is an attempt to open a connection. -/
def Op.isOpen : Op → Bool
  | Op.Open _ _ => true
  | _ => false

/-- Whether an operation configures the pool or reconciles the schema. -/
def Op.isPoolOrSchema : Op → Bool
  | Op.SetMaxOpenConns _ => true
  | Op.SetMaxIdleConns _ => true
  | Op.SetConnMaxLifetime _ => true
  | Op.AutoMigrate _ => true
  | _ => false

/-- The state outside the package that `New` acts on: the process-wide
`logger.Default` of GORM (`none` is GORM's own initial logger), the settings
of the pool behind the connection, and the operations requested so far,
oldest first. -/
structure World where
  loggerDefault : Option logger.Interface
  sqlDB : sql.DB
  trace : List Op

/-- The behaviour of the collaborators during one call of `New`: the
renderer `fmt.Sprintf`, the value of `flamego.Env()`, and the error (`none`
for `nil`) returned by `gorm.Open`, by `(*gorm.DB).DB` and by
`(*gorm.DB).AutoMigrate`. -/
structure Runtime where
  Sprintf : String → List Any → String
  Env : flamego.EnvType
  Open : String → gorm.Config → Option error
  DB : Option error
  AutoMigrate : List Model → Option error

/-- The assignment `logger.Default = l`. -/
def World.installLogger (w : World) (l : logger.Interface) : World :=
  { w with loggerDefault := some l, trace := w.trace ++ [Op.InstallLogger l] }

/-- A request to the storage runtime that changes no setting. -/
def World.call (w : World) (op : Op) : World :=
  { w with trace := w.trace ++ [op] }

/-- The call `sqlDB.SetMaxOpenConns(n)`. -/
def World.SetMaxOpenConns (w : World) (n : Int) : World :=
  { w with sqlDB := w.sqlDB.SetMaxOpenConns n, trace := w.trace ++ [Op.SetMaxOpenConns n] }

/-- The call `sqlDB.SetMaxIdleConns(n)`. -/
def World.SetMaxIdleConns (w : World) (n : Int) : World :=
  { w with sqlDB := w.sqlDB.SetMaxIdleConns n, trace := w.trace ++ [Op.SetMaxIdleConns n] }

/-- The call `sqlDB.SetConnMaxLifetime(d)`. -/
def World.SetConnMaxLifetime (w : World) (d : time.Duration) : World :=
  { w with sqlDB := w.sqlDB.SetConnMaxLifetime d,
           trace := w.trace ++ [Op.SetConnMaxLifetime d] }

/-! ## `New` -/

/-- The format of the connection descriptor. -/
def dsnFormat : String :=
  "user='%s' password='%s' host='%s' port='%d' dbname='%s' search_path='public' application_name='pgrokd' client_encoding=UTF8"

/-- The clock function `New` puts in `gorm.Config.NowFunc`:
`time.Now().UTC().Truncate(time.Microsecond)`, with the reading of
`time.Now()` as the argument. -/
def NowFunc (now : time.Time) : time.Time :=
  now.UTC.Truncate time.Microsecond

/-- The connection descriptor `dsn` that `New` composes, with the renderer
`fmt.Sprintf` as the parameter `Sprintf`. -/
def dsn (Sprintf : String → List Any → String) (config : conf.Database) : String :=
  Sprintf dsnFormat
    [Any.str config.User, Any.str config.Password, Any.str config.Host,
     Any.int config.Port, Any.str config.Database]

/-- The session configuration `&gorm.Config{...}` that `New` passes to
`gorm.Open`. -/
def gormConfig : gorm.Config :=
  { SkipDefaultTransaction := true, NowFunc := NowFunc }

/-- The function `New(logWriter, config)`: the world after the call, the
handle (`none` for `nil`) and the error (`none` for `nil`). -/
def New (rt : Runtime) (w : World) (logWriter : io.Writer) (config : Option conf.Database) :
    World × Option DB × Option error :=
  match config with
  | none => (w, none, errors.New "no database config provided")
  | some config =>
    let level : logger.LogLevel :=
      if rt.Env = flamego.EnvTypeProd then logger.LogLevel.Warn else logger.LogLevel.Info
    let w := w.installLogger
      (logger.New
        { Logger := log.NewWithOptions logWriter
            { TimeFormat := time.DateTime
              Level := log.Level.DebugLevel
              Prefix := "gorm"
              ReportTimestamp := true } }
        { SlowThreshold := 1000 * time.Millisecond
          LogLevel := level })
    let dsn := dsn rt.Sprintf config
    let w := w.call (Op.Open dsn gormConfig)
    let err := rt.Open dsn gormConfig
    if err.isSome then (w, none, errors.Wrap err "open database")
    else
      let db : gorm.DB := { dsn := dsn, Config := gormConfig }
      let w := w.call Op.DB
      let err := rt.DB
      if err.isSome then (w, none, errors.Wrap err "get underlying *sql.DB")
      else
        let w := w.SetMaxOpenConns 30
        let w := w.SetMaxIdleConns 30
        let w := w.SetConnMaxLifetime time.Minute
        let w := w.call (Op.AutoMigrate [Model.Principal, Model.HostKey])
        let err := rt.AutoMigrate [Model.Principal, Model.HostKey]
        if err.isSome then (w, none, errors.Wrap err "auto migrate")
        else (w, some { DB := db }, none)

/-- The operations requested from the storage runtime during one call of
`New`: what the call appended to the trace. -/
def performed (rt : Runtime) (w : World) (logWriter : io.Writer)
    (config : Option conf.Database) : List Op :=
  (New rt w logWriter config).1.trace.drop w.trace.length

/-- The logger that `New` installs for a deployment mode and a sink. -/
def installed (env : flamego.EnvType) (logWriter : io.Writer) : logger.Interface :=
  logger.New
    { Logger := log.NewWithOptions logWriter
        { TimeFormat := time.DateTime
          Level := log.Level.DebugLevel
          Prefix := "gorm"
          ReportTimestamp := true } }
    { SlowThreshold := 1000 * time.Millisecond
      LogLevel := if env = flamego.EnvTypeProd then logger.LogLevel.Warn
                  else logger.LogLevel.Info }

/-- The fixed sequence of the operations of a complete bootstrap, for a
logger and a descriptor. -/
def fullSequence (l : logger.Interface) (d : String) : List Op :=
  [Op.InstallLogger l, Op.Open d gormConfig, Op.DB, Op.SetMaxOpenConns 30,
   Op.SetMaxIdleConns 30, Op.SetConnMaxLifetime time.Minute,
   Op.AutoMigrate [Model.Principal, Model.HostKey]]

/-! ## Concrete collaborators, used to evaluate `New` -/

/-- A renderer that is `fmt.Sprintf` on the modelled fragment and the empty
text elsewhere. -/
def sprintf0 (format : String) (a : List Any) : String :=
  (fmt.Sprintf format a).getD ""

/-- A world in which nothing has happened: GORM's own logger, a pool with the
settings of a fresh `sql.DB`. -/
def world0 : World :=
  { loggerDefault := none, sqlDB := { maxOpen := 0, maxIdleCount := 0, maxLifetime := 0 },
    trace := [] }

/-- A configuration. -/
def config0 : conf.Database :=
  { Host := "localhost", Port := 5432, User := "pgrok", Password := "s3cret", Database := "pgrokd" }

/-- A runtime in which every step succeeds, outside production. -/
def rtOk : Runtime :=
  { Sprintf := sprintf0, Env := "development", Open := fun _ _ => none, DB := none,
    AutoMigrate := fun _ => none }

/-- A runtime in which the connection cannot be opened. -/
def rtOpenFails : Runtime :=
  { rtOk with Open := fun _ _ => some (error.fundamental "connection refused") }

/-- A runtime in which the underlying pool handle cannot be retrieved. -/
def rtDBFails : Runtime :=
  { rtOk with DB := some (error.fundamental "unsupported driver") }

/-- A runtime in which schema reconciliation fails, in production. -/
def rtMigrateFails : Runtime :=
  { rtOk with Env := "production",
              AutoMigrate := fun _ => some (error.fundamental "permission denied") }

/-- A logger that has received nothing. -/
def logger0 : gormLogger :=
  { Logger := log.NewWithOptions ⟨1⟩
      { TimeFormat := time.DateTime, Level := log.Level.DebugLevel, Prefix := "gorm",
        ReportTimestamp := true } }

/-! ## Definitions used to state the properties -/

/-- The connection descriptor as the specification writes it: the five values
of the configuration between apostrophes, the port in decimal, then the fixed
search path, application name and client encoding. -/
def descriptor (c : conf.Database) : String :=
  "user='" ++ c.User ++ "' password='" ++ c.Password ++ "' host='" ++ c.Host
    ++ "' port='" ++ String.mk (fmtInteger c.Port) ++ "' dbname='" ++ c.Database
    ++ "' search_path='public' application_name='pgrokd' client_encoding=UTF8"

/-- The value of a decimal digit. -/
def digitValue (c : Char) : Nat := c.toNat - 48

/-- The natural number written by a list of decimal digits. -/
def digitsValue (ds : List Char) : Nat :=
  ds.foldl (fun acc c => 10 * acc + digitValue c) 0

/-- The integer written by a decimal text: an optional minus sign, then
digits. -/
def decimalValue (cs : List Char) : Int :=
  match cs with
  | [] => 0
  | c :: ds => if c = '-' then -(digitsValue ds : Int) else (digitsValue (c :: ds) : Int)

/-- No string field of the configuration contains an apostrophe. -/
abbrev conf.Database.QuoteFree (c : conf.Database) : Prop :=
  quote ∉ c.User.data ∧ quote ∉ c.Password.data ∧ quote ∉ c.Host.data
    ∧ quote ∉ c.Database.data

/-- Another configuration, with a negative port. -/
def config1 : conf.Database :=
  { Host := "db.internal", Port := -7, User := "admin", Password := "", Database := "pgrokd" }

/-- A reading of the system clock: local zone, a monotonic reading, and
123456789 nanoseconds into the second. -/
def instant0 : time.Time :=
  { sec := 63900000000, nsec := 123456789, mono := some 42, loc := time.Location.Local }

/-! ## Lemmas on the library models -/

theorem hasPrefixList_iff (s p : List Char) :
    strings.hasPrefixList s p = true ↔ ∃ t, s = p ++ t := by
  induction p generalizing s with
  | nil => cases s <;> simp [strings.hasPrefixList]
  | cons x xs ih =>
    cases s with
    | nil => simp [strings.hasPrefixList]
    | cons c cs =>
      simp only [strings.hasPrefixList, Bool.and_eq_true, beq_iff_eq, ih, List.cons_append,
        List.cons.injEq]
      constructor
      · rintro ⟨rfl, t, rfl⟩
        exact ⟨t, rfl, rfl⟩
      · rintro ⟨t, rfl, rfl⟩
        exact ⟨rfl, t, rfl⟩

theorem containsList_iff (s sub : List Char) :
    strings.containsList s sub = true ↔ ∃ pre post, s = pre ++ sub ++ post := by
  induction s with
  | nil =>
    simp only [strings.containsList, hasPrefixList_iff]
    constructor
    · rintro ⟨t, ht⟩
      exact ⟨[], t, by simpa using ht⟩
    · rintro ⟨pre, post, h⟩
      have h1 : pre = [] ∧ sub = [] ∧ post = [] := by
        simpa [List.append_eq_nil, and_assoc] using h.symm
      exact ⟨[], by simp [h1.2.1]⟩
  | cons c cs ih =>
    simp only [strings.containsList, Bool.or_eq_true, hasPrefixList_iff, ih]
    constructor
    · rintro (⟨t, ht⟩ | ⟨pre, post, h⟩)
      · exact ⟨[], t, by simpa using ht⟩
      · exact ⟨c :: pre, post, by simp [h]⟩
    · rintro ⟨pre, post, h⟩
      cases pre with
      | nil => exact Or.inl ⟨post, by simpa using h⟩
      | cons x xs =>
        simp only [List.cons_append, List.cons.injEq] at h
        exact Or.inr ⟨xs, post, h.2⟩

theorem Contains_iff (s sub : String) :
    strings.Contains s sub = true ↔ ∃ pre post : String, s = pre ++ sub ++ post := by
  unfold strings.Contains
  rw [containsList_iff]
  constructor
  · rintro ⟨pre, post, h⟩
    exact ⟨String.mk pre, String.mk post, String.ext (by simpa using h)⟩
  · rintro ⟨pre, post, h⟩
    exact ⟨pre.data, post.data, by simp [h]⟩

theorem renders_sprintf0 : Renders sprintf0 := by
  intro format a s h
  simp [sprintf0, h]

theorem doPrintf_nil : fmt.doPrintf [] [] = some [] := by
  rw [fmt.doPrintf.eq_def]; simp

theorem doPrintf_literal (c : Char) (rest : List Char) (a : List Any) (hc : c ≠ '%') :
    fmt.doPrintf (c :: rest) a = (fmt.doPrintf rest a).map (fun out => c :: out) := by
  rw [fmt.doPrintf.eq_def]; simp [hc]

theorem doPrintf_s (v : String) (rest : List Char) (a : List Any) :
    fmt.doPrintf ('%' :: 's' :: rest) (Any.str v :: a)
      = (fmt.doPrintf rest a).map (fun out => v.data ++ out) := by
  rw [fmt.doPrintf.eq_def]; simp

theorem doPrintf_d (n : Int) (rest : List Char) (a : List Any) :
    fmt.doPrintf ('%' :: 'd' :: rest) (Any.int n :: a)
      = (fmt.doPrintf rest a).map (fun out => fmtInteger n ++ out) := by
  rw [fmt.doPrintf.eq_def]; simp

theorem Sprintf_dsn (c : conf.Database) :
    fmt.Sprintf dsnFormat
      [Any.str c.User, Any.str c.Password, Any.str c.Host, Any.int c.Port, Any.str c.Database]
    = some ("user='" ++ c.User ++ "' password='" ++ c.Password ++ "' host='" ++ c.Host
        ++ "' port='" ++ String.mk (fmtInteger c.Port) ++ "' dbname='" ++ c.Database
        ++ "' search_path='public' application_name='pgrokd' client_encoding=UTF8") := by
  simp only [fmt.Sprintf, dsnFormat]
  simp [doPrintf_nil, doPrintf_literal, doPrintf_s, doPrintf_d]
  apply String.ext
  simp

/-! ## The outcomes of `New` -/

theorem New_open_fails (rt : Runtime) (w : World) (lw : io.Writer) (c : conf.Database)
    (e : error) (h : rt.Open (dsn rt.Sprintf c) gormConfig = some e) :
    New rt w lw (some c)
      = ({ loggerDefault := some (installed rt.Env lw), sqlDB := w.sqlDB,
           trace := w.trace ++ (fullSequence (installed rt.Env lw) (dsn rt.Sprintf c)).take 2 },
         none, some (error.withStack (error.withMessage e "open database"))) := by
  simp [New, h, errors.Wrap, World.installLogger, World.call, installed, fullSequence]

theorem New_DB_fails (rt : Runtime) (w : World) (lw : io.Writer) (c : conf.Database)
    (e : error) (h1 : rt.Open (dsn rt.Sprintf c) gormConfig = none) (h2 : rt.DB = some e) :
    New rt w lw (some c)
      = ({ loggerDefault := some (installed rt.Env lw), sqlDB := w.sqlDB,
           trace := w.trace ++ (fullSequence (installed rt.Env lw) (dsn rt.Sprintf c)).take 3 },
         none, some (error.withStack (error.withMessage e "get underlying *sql.DB"))) := by
  simp [New, h1, h2, errors.Wrap, World.installLogger, World.call, installed, fullSequence]

theorem New_migrate_fails (rt : Runtime) (w : World) (lw : io.Writer) (c : conf.Database)
    (e : error) (h1 : rt.Open (dsn rt.Sprintf c) gormConfig = none) (h2 : rt.DB = none)
    (h3 : rt.AutoMigrate [Model.Principal, Model.HostKey] = some e) :
    New rt w lw (some c)
      = ({ loggerDefault := some (installed rt.Env lw),
           sqlDB := ((w.sqlDB.SetMaxOpenConns 30).SetMaxIdleConns 30).SetConnMaxLifetime
             time.Minute,
           trace := w.trace ++ fullSequence (installed rt.Env lw) (dsn rt.Sprintf c) },
         none, some (error.withStack (error.withMessage e "auto migrate"))) := by
  simp [New, h1, h2, h3, errors.Wrap, World.installLogger, World.call, installed, fullSequence,
    World.SetMaxOpenConns, World.SetMaxIdleConns, World.SetConnMaxLifetime]

theorem New_succeeds (rt : Runtime) (w : World) (lw : io.Writer) (c : conf.Database)
    (h1 : rt.Open (dsn rt.Sprintf c) gormConfig = none) (h2 : rt.DB = none)
    (h3 : rt.AutoMigrate [Model.Principal, Model.HostKey] = none) :
    New rt w lw (some c)
      = ({ loggerDefault := some (installed rt.Env lw),
           sqlDB := ((w.sqlDB.SetMaxOpenConns 30).SetMaxIdleConns 30).SetConnMaxLifetime
             time.Minute,
           trace := w.trace ++ fullSequence (installed rt.Env lw) (dsn rt.Sprintf c) },
         some { DB := { dsn := dsn rt.Sprintf c, Config := gormConfig } }, none) := by
  simp [New, h1, h2, h3, World.installLogger, World.call, installed, fullSequence,
    World.SetMaxOpenConns, World.SetMaxIdleConns, World.SetConnMaxLifetime]

theorem SetMaxIdleConns_maxOpen (db : sql.DB) (n : Int) :
    (db.SetMaxIdleConns n).maxOpen = db.maxOpen := by
  unfold sql.DB.SetMaxIdleConns
  simp only [apply_ite sql.DB.maxOpen, ite_self]

theorem SetMaxOpenConns_thirty (db : sql.DB) : (db.SetMaxOpenConns 30).maxOpen = 30 := by
  unfold sql.DB.SetMaxOpenConns
  simp only [apply_ite sql.DB.maxOpen, SetMaxIdleConns_maxOpen, ite_self]
  simp

theorem SetMaxIdleConns_thirty (db : sql.DB) (h : db.maxOpen = 30) :
    (db.SetMaxIdleConns 30).maxIdleCount = 30 := by
  unfold sql.DB.SetMaxIdleConns
  simp [sql.DB.maxIdleConnsLocked, h]

theorem pool_after_setters (db : sql.DB) :
    (((db.SetMaxOpenConns 30).SetMaxIdleConns 30).SetConnMaxLifetime time.Minute).maxOpen = 30
    ∧ (((db.SetMaxOpenConns 30).SetMaxIdleConns 30).SetConnMaxLifetime
        time.Minute).maxIdleConnsLocked = 30
    ∧ (((db.SetMaxOpenConns 30).SetMaxIdleConns 30).SetConnMaxLifetime
        time.Minute).maxLifetime = 60000000000 := by
  have h1 := SetMaxOpenConns_thirty db
  have h2 := SetMaxIdleConns_thirty _ h1
  have h3 : ((db.SetMaxOpenConns 30).SetMaxIdleConns 30).maxOpen = 30 := by
    rw [SetMaxIdleConns_maxOpen]
    exact h1
  refine ⟨h3, ?_, ?_⟩
  · simp [sql.DB.SetConnMaxLifetime, sql.DB.maxIdleConnsLocked, h2]
  · simp [sql.DB.SetConnMaxLifetime, time.Minute, time.Second, time.Millisecond,
      time.Microsecond, time.Nanosecond]

theorem performed_eq (rt : Runtime) (w : World) (lw : io.Writer) (config : Option conf.Database)
    (ops : List Op) (h : (New rt w lw config).1.trace = w.trace ++ ops) :
    performed rt w lw config = ops := by
  simp [performed, h]

/-! ## Lemmas on `time` -/

theorem div_microsecond (t : time.Time) (h : t.WellFormed) :
    time.div t time.Microsecond = t.nsec % 1000 := by
  obtain ⟨h0, h1⟩ := h
  have hS : time.Second = 1000000000 := by decide
  have hM : time.Microsecond = 1000 := by decide
  have hc : (1000 : Int) < 1000000000 ∧ (1000000000 : Int).tmod (1000 + 1000) = 0 := by decide
  unfold time.div
  simp only [hS, hM, hc, and_self, if_true]
  by_cases hneg : t.sec < 0
  · by_cases hz : t.nsec = 0
    · simp [hneg, hz]
    · have hlt : -t.nsec < 0 := by omega
      have hnn : (0 : Int) ≤ -t.nsec + 1000000000 := by omega
      simp only [hneg, hlt, decide_True, Bool.and_self, if_true, true_and]
      rw [Int.tmod_eq_emod hnn (by decide)]
      by_cases hr : (-t.nsec + 1000000000) % 1000 = 0
      · rw [if_neg (by simpa using hr)]
        show ((-t.nsec + 1000000000) % 1000 : Int) = t.nsec % 1000
        omega
      · rw [if_pos hr]
        show (1000 - (-t.nsec + 1000000000) % 1000 : Int) = t.nsec % 1000
        omega
  · simp only [hneg, decide_False, Bool.false_and, if_false, false_and, Bool.false_eq_true]
    exact Int.tmod_eq_emod h0 (by decide)

theorem Add_neg_small (t : time.Time) (r : Int) (h0 : 0 ≤ r) (h1 : r ≤ t.nsec)
    (h2 : t.nsec < 1000000000) :
    t.Add (-r) = { t with nsec := t.nsec - r, mono := t.mono.map (fun m => m + -r) } := by
  have hr : r < 1000000000 := by omega
  have hd : (-r).tdiv 1000000000 = 0 := by
    rw [Int.neg_tdiv, Int.tdiv_eq_zero_of_lt h0 hr]
    rfl
  have hm : (-r).tmod 1000000000 = -r := by
    rw [Int.tmod_def, hd]
    simp
  unfold time.Time.Add
  simp only [hd, hm]
  have e1 : ¬ (t.nsec + -r ≥ 1000000000) := by omega
  have e2 : ¬ (t.nsec + -r < 0) := by omega
  simp only [e1, e2, if_false, add_zero]
  rfl

theorem NowFunc_eq (t : time.Time) (h : t.WellFormed) :
    NowFunc t
      = { sec := t.sec, nsec := t.nsec - t.nsec % 1000, mono := none,
          loc := time.Location.UTC } := by
  have hw : t.UTC.stripMono.WellFormed := h
  obtain ⟨h0, h1⟩ := h
  have hM : ¬ (time.Microsecond ≤ 0) := by decide
  unfold NowFunc time.Time.Truncate
  simp only [hM, if_false]
  rw [div_microsecond _ hw]
  have hn : t.UTC.stripMono.nsec = t.nsec := rfl
  rw [Add_neg_small _ _ (by rw [hn]; omega) (by rw [hn]; omega) (by rw [hn]; exact h1)]
  rfl

/-! ## Lemmas on the descriptor -/

theorem digitValue_digitByte (d : Nat) (h : d < 10) : digitValue (digitByte d) = d := by
  interval_cases d <;> rfl

theorem digitByte_isDigit (d : Nat) : (digitByte d).isDigit = true := by
  unfold digitByte
  split <;> rfl

theorem fmtDigits_isDigit (fuel u : Nat) : ∀ c ∈ fmtDigits fuel u, c.isDigit = true := by
  induction fuel generalizing u with
  | zero => simp [fmtDigits]
  | succ n ih =>
    intro c hc
    unfold fmtDigits at hc
    split at hc
    · simp only [List.mem_singleton] at hc
      rw [hc]
      exact digitByte_isDigit u
    · rcases List.mem_append.1 hc with h | h
      · exact ih _ c h
      · simp only [List.mem_singleton] at h
        rw [h]
        exact digitByte_isDigit _

theorem digitsValue_append (xs : List Char) (c : Char) :
    digitsValue (xs ++ [c]) = 10 * digitsValue xs + digitValue c := by
  simp [digitsValue, List.foldl_append]

theorem digitsValue_fmtDigits (fuel u : Nat) (h : u < fuel) :
    digitsValue (fmtDigits fuel u) = u := by
  induction fuel generalizing u with
  | zero => omega
  | succ n ih =>
    unfold fmtDigits
    split
    · rename_i hu
      simp [digitsValue, digitValue_digitByte u hu]
    · rename_i hu
      rw [digitsValue_append, ih (u / 10) (by omega),
        digitValue_digitByte (u % 10) (Nat.mod_lt _ (by decide))]
      omega

theorem fmtDigits_ne_nil (fuel u : Nat) : fmtDigits (fuel + 1) u ≠ [] := by
  unfold fmtDigits
  split <;> simp

theorem decimalValue_fmtInteger (v : Int) : decimalValue (fmtInteger v) = v := by
  unfold fmtInteger
  split
  · rename_i hv
    simp only [decimalValue, if_true]
    rw [digitsValue_fmtDigits _ _ (Nat.lt_succ_self _)]
    omega
  · rename_i hv
    have hne := fmtDigits_ne_nil v.natAbs v.natAbs
    have hval := digitsValue_fmtDigits (v.natAbs + 1) v.natAbs (Nat.lt_succ_self _)
    have hdig := fmtDigits_isDigit (v.natAbs + 1) v.natAbs
    cases hds : fmtDigits (v.natAbs + 1) v.natAbs with
    | nil => exact absurd hds hne
    | cons c ds =>
      rw [hds] at hval hdig
      have hc : c ≠ '-' := by
        intro hc
        have := hdig c (List.mem_cons_self _ _)
        rw [hc] at this
        exact absurd this (by decide)
      simp only [decimalValue, hc, if_false, hval]
      omega

theorem fmtInteger_chars (v : Int) : ∀ c ∈ fmtInteger v, c = '-' ∨ c.isDigit = true := by
  intro c hc
  unfold fmtInteger at hc
  split at hc
  · rcases List.mem_cons.1 hc with h | h
    · exact Or.inl h
    · exact Or.inr (fmtDigits_isDigit _ _ c h)
  · exact Or.inr (fmtDigits_isDigit _ _ c hc)

theorem quote_not_mem_fmtInteger (v : Int) : quote ∉ fmtInteger v := by
  intro h
  rcases fmtInteger_chars v quote h with h | h
  · exact absurd h (by decide)
  · exact absurd h (by decide)

theorem split_at (q : Char) (l1 : List Char) :
    ∀ (l2 r1 r2 : List Char), q ∉ l1 → q ∉ l2 → l1 ++ q :: r1 = l2 ++ q :: r2 →
      l1 = l2 ∧ r1 = r2 := by
  induction l1 with
  | nil =>
    intro l2 r1 r2 _ h2 h
    cases l2 with
    | nil => simpa using h
    | cons x xs =>
      simp only [List.nil_append, List.cons_append, List.cons.injEq] at h
      exact absurd (h.1 ▸ List.mem_cons_self _ _) h2
  | cons a l1 ih =>
    intro l2 r1 r2 h1 h2 h
    cases l2 with
    | nil =>
      simp only [List.nil_append, List.cons_append, List.cons.injEq] at h
      exact absurd (h.1 ▸ List.mem_cons_self _ _) h1
    | cons x xs =>
      simp only [List.cons_append, List.cons.injEq] at h
      have := ih xs r1 r2 (fun hm => h1 (List.mem_cons_of_mem _ hm))
        (fun hm => h2 (List.mem_cons_of_mem _ hm)) h.2
      exact ⟨by rw [h.1, this.1], this.2⟩

theorem strip_label (p x y : List Char) (h : p ++ quote :: x = p ++ quote :: y) : x = y :=
  (List.cons.inj (List.append_cancel_left h)).2

set_option maxRecDepth 100000 in
theorem descriptor_data (c : conf.Database) :
    (descriptor c).data
      = "user=".data ++ quote :: (c.User.data ++ quote :: (" password=".data ++ quote ::
        (c.Password.data ++ quote :: (" host=".data ++ quote :: (c.Host.data ++ quote ::
        (" port=".data ++ quote :: (fmtInteger c.Port ++ quote :: (" dbname=".data ++ quote ::
        (c.Database.data ++ quote ::
          " search_path='public' application_name='pgrokd' client_encoding=UTF8".data
        ))))))))) := by
  simp only [descriptor, String.data_append, List.append_assoc]
  rfl

theorem descriptor_injective (c1 c2 : conf.Database) (h1 : c1.QuoteFree) (h2 : c2.QuoteFree)
    (h : descriptor c1 = descriptor c2) : c1 = c2 := by
  have hd := congrArg String.data h
  rw [descriptor_data, descriptor_data] at hd
  obtain ⟨u1, p1, o1, d1⟩ := h1
  obtain ⟨u2, p2, o2, d2⟩ := h2
  have s1 := split_at quote _ _ _ _ u1 u2 (strip_label _ _ _ hd)
  have s2 := split_at quote _ _ _ _ p1 p2 (strip_label _ _ _ s1.2)
  have s3 := split_at quote _ _ _ _ o1 o2 (strip_label _ _ _ s2.2)
  have s4 := split_at quote _ _ _ _ (quote_not_mem_fmtInteger _) (quote_not_mem_fmtInteger _)
    (strip_label _ _ _ s3.2)
  have s5 := split_at quote _ _ _ _ d1 d2 (strip_label _ _ _ s4.2)
  have hport : c1.Port = c2.Port := by
    rw [← decimalValue_fmtInteger c1.Port, ← decimalValue_fmtInteger c2.Port, s4.1]
  cases c1
  cases c2
  simp only [conf.Database.mk.injEq]
  simp only at s1 s2 s3 s5 hport
  exact ⟨String.ext s3.1, hport, String.ext s1.1, String.ext s2.1, String.ext s5.1⟩

theorem dsn_eq_descriptor (sp : String → List Any → String) (h : Renders sp)
    (c : conf.Database) : dsn sp c = descriptor c :=
  h _ _ _ (Sprintf_dsn c)

theorem performed_starts (rt : Runtime) (w : World) (lw : io.Writer) (c : conf.Database) :
    ∃ rest, performed rt w lw (some c)
      = Op.InstallLogger (installed rt.Env lw) :: Op.Open (dsn rt.Sprintf c) gormConfig :: rest := by
  rcases ho : rt.Open (dsn rt.Sprintf c) gormConfig with _ | e
  · rcases hd : rt.DB with _ | e
    · rcases hm : rt.AutoMigrate [Model.Principal, Model.HostKey] with _ | e
      · exact ⟨_, performed_eq _ _ _ _ _ (by rw [New_succeeds rt w lw c ho hd hm]; rfl)⟩
      · exact ⟨_, performed_eq _ _ _ _ _ (by rw [New_migrate_fails rt w lw c e ho hd hm]; rfl)⟩
    · exact ⟨_, performed_eq _ _ _ _ _ (by rw [New_DB_fails rt w lw c e ho hd]; rfl)⟩
  · exact ⟨_, performed_eq _ _ _ _ _ (by rw [New_open_fails rt w lw c e ho]; rfl)⟩

theorem handle_dsn (rt : Runtime) (w : World) (lw : io.Writer) (c : conf.Database) (hd : DB)
    (h : (New rt w lw (some c)).2.1 = some hd) : hd.DB.dsn = dsn rt.Sprintf c := by
  rcases ho : rt.Open (dsn rt.Sprintf c) gormConfig with _ | e
  · rcases hdb : rt.DB with _ | e
    · rcases hm : rt.AutoMigrate [Model.Principal, Model.HostKey] with _ | e
      · rw [New_succeeds rt w lw c ho hdb hm] at h
        simp only [Option.some.injEq] at h
        rw [← h]
      · rw [New_migrate_fails rt w lw c e ho hdb hm] at h
        simp at h
    · rw [New_DB_fails rt w lw c e ho hdb] at h
      simp at h
  · rw [New_open_fails rt w lw c e ho] at h
    simp at h

/-! ## The logging adapter (C1) -/

/-- C1: for every renderer, format and argument list, `gormLogger.Printf`
hands exactly one event to the underlying logger. Its text is the rendered
message; its level is error exactly when the rendered message contains
`[error]` as a substring, and debug exactly when it does not; the sink and the
options of the logger are untouched. For a renderer that agrees with
`fmt.Sprintf`, the format `%s` with the operand `[error]` and the message
`slow [error] query` are emitted at error level, and `query took 5ms` and
`[ERROR] x` at debug level. -/
theorem C1_Printf_one_event_level_by_marker (sp : String → List Any → String)
    (l : gormLogger) (format : String) (args : List Any) :
    (∃ lvl : log.Level,
      (gormLogger.Printf sp l format args).Logger.events
        = l.Logger.events ++ [⟨lvl, sp format args⟩]
      ∧ (lvl = log.Level.ErrorLevel ↔
          ∃ pre post : String, sp format args = pre ++ "[error]" ++ post)
      ∧ (lvl = log.Level.DebugLevel ↔
          ¬ ∃ pre post : String, sp format args = pre ++ "[error]" ++ post))
    ∧ (gormLogger.Printf sp l format args).Logger.w = l.Logger.w
    ∧ (gormLogger.Printf sp l format args).Logger.o = l.Logger.o
    ∧ (Renders sp →
        (gormLogger.Printf sp l "%s" [Any.str "[error]"]).Logger.events
          = l.Logger.events ++ [⟨log.Level.ErrorLevel, "[error]"⟩]
        ∧ (gormLogger.Printf sp l "slow [error] query" []).Logger.events
          = l.Logger.events ++ [⟨log.Level.ErrorLevel, "slow [error] query"⟩]
        ∧ (gormLogger.Printf sp l "query took 5ms" []).Logger.events
          = l.Logger.events ++ [⟨log.Level.DebugLevel, "query took 5ms"⟩]
        ∧ (gormLogger.Printf sp l "[ERROR] x" []).Logger.events
          = l.Logger.events ++ [⟨log.Level.DebugLevel, "[ERROR] x"⟩]) := by
  refine ⟨?_, ?_, ?_, ?_⟩
  · by_cases h : strings.Contains (sp format args) "[error]" = true
    · refine ⟨log.Level.ErrorLevel, ?_, ?_, ?_⟩
      · simp [gormLogger.Printf, h, log.Logger.Error]
      · simpa using (Contains_iff _ _).1 h
      · simpa using (Contains_iff _ _).1 h
    · have h2 : ¬ ∃ pre post : String, sp format args = pre ++ "[error]" ++ post :=
        fun hx => h ((Contains_iff _ _).2 hx)
      refine ⟨log.Level.DebugLevel, ?_, ?_, ?_⟩
      · simp [gormLogger.Printf, h, log.Logger.Debug]
      · simpa using h2
      · simpa using h2
  · by_cases h : strings.Contains (sp format args) "[error]" = true <;>
      simp [gormLogger.Printf, h, log.Logger.Error, log.Logger.Debug]
  · by_cases h : strings.Contains (sp format args) "[error]" = true <;>
      simp [gormLogger.Printf, h, log.Logger.Error, log.Logger.Debug]
  · intro hr
    have e1 : sp "%s" [Any.str "[error]"] = "[error]" := hr _ _ _ (by decide)
    have e2 : sp "slow [error] query" [] = "slow [error] query" := hr _ _ _ (by decide)
    have e3 : sp "query took 5ms" [] = "query took 5ms" := hr _ _ _ (by decide)
    have e4 : sp "[ERROR] x" [] = "[ERROR] x" := hr _ _ _ (by decide)
    have c1 : strings.Contains "[error]" "[error]" = true := by decide
    have c2 : strings.Contains "slow [error] query" "[error]" = true := by decide
    have c3 : strings.Contains "query took 5ms" "[error]" = false := by decide
    have c4 : strings.Contains "[ERROR] x" "[error]" = false := by decide
    simp [gormLogger.Printf, e1, e2, e3, e4, c1, c2, c3, c4, log.Logger.Error,
      log.Logger.Debug]

/-- C1, evaluated: with the renderer `sprintf0` and a logger that has received
nothing, the four messages of the claim are emitted at the stated levels. -/
theorem C1_Printf_witness :
    (gormLogger.Printf sprintf0 logger0 "%s" [Any.str "[error]"]).Logger.events
      = logger0.Logger.events ++ [⟨log.Level.ErrorLevel, "[error]"⟩]
    ∧ (gormLogger.Printf sprintf0 logger0 "slow [error] query" []).Logger.events
      = logger0.Logger.events ++ [⟨log.Level.ErrorLevel, "slow [error] query"⟩]
    ∧ (gormLogger.Printf sprintf0 logger0 "query took 5ms" []).Logger.events
      = logger0.Logger.events ++ [⟨log.Level.DebugLevel, "query took 5ms"⟩]
    ∧ (gormLogger.Printf sprintf0 logger0 "[ERROR] x" []).Logger.events
      = logger0.Logger.events ++ [⟨log.Level.DebugLevel, "[ERROR] x"⟩] :=
  (C1_Printf_one_event_level_by_marker sprintf0 logger0 "" []).2.2.2 renders_sprintf0

/-! ## The missing configuration (C2) -/

/-- C2: for every sink, every runtime and every world, `New` with a `nil`
configuration returns no handle and the error `no database config provided`,
and does nothing else: no operation is requested from the storage runtime, and
the process-wide logger, the pool and the trace are as before the call. -/
theorem C2_New_nil_config (rt : Runtime) (w : World) (logWriter : io.Writer) :
    (New rt w logWriter none).2.1.isNone = true
    ∧ (New rt w logWriter none).2.2 = some (error.fundamental "no database config provided")
    ∧ (New rt w logWriter none).2.2.map error.Error = some "no database config provided"
    ∧ performed rt w logWriter none = []
    ∧ (New rt w logWriter none).1.trace = w.trace
    ∧ (New rt w logWriter none).1.loggerDefault = w.loggerDefault
    ∧ (New rt w logWriter none).1.sqlDB = w.sqlDB := by
  simp [New, performed, errors.New, error.Error]

/-! ## A failed connection (C3) -/

/-- C3: for every configuration, if opening the connection fails with the
error `e`, then `New` returns no handle and the error `e` wrapped with the
message `open database`: unwrapping the two layers of the wrap gives `e`, the
root cause is that of `e`, and the message is `open database: ` followed by
the message of `e`. The pool is not configured: its settings are unchanged and
the only operations requested are the installation of the logger and one
attempt to open the connection. -/
theorem C3_open_failure_wrapped_no_pool (rt : Runtime) (w : World) (logWriter : io.Writer)
    (c : conf.Database) (e : error)
    (h : rt.Open (dsn rt.Sprintf c) gormConfig = some e) :
    (New rt w logWriter (some c)).2.1.isNone = true
    ∧ (New rt w logWriter (some c)).2.2 = errors.Wrap (some e) "open database"
    ∧ (∃ err, (New rt w logWriter (some c)).2.2 = some err
        ∧ err.Unwrap.bind error.Unwrap = some e
        ∧ errors.Cause err = errors.Cause e
        ∧ err.Error = "open database: " ++ e.Error)
    ∧ (New rt w logWriter (some c)).1.sqlDB = w.sqlDB
    ∧ (∃ l, performed rt w logWriter (some c)
        = [Op.InstallLogger l, Op.Open (dsn rt.Sprintf c) gormConfig])
    ∧ (performed rt w logWriter (some c)).countP Op.isOpen = 1
    ∧ (∀ op ∈ performed rt w logWriter (some c), op.isPoolOrSchema = false) := by
  have hN := New_open_fails rt w logWriter c e h
  have hp : performed rt w logWriter (some c)
      = [Op.InstallLogger (installed rt.Env logWriter), Op.Open (dsn rt.Sprintf c) gormConfig] :=
    performed_eq _ _ _ _ _ (by rw [hN]; rfl)
  refine ⟨by simp [hN], by simp [hN, errors.Wrap],
    ⟨error.withStack (error.withMessage e "open database"), by simp [hN], ?_, ?_, ?_⟩,
    by simp [hN], ⟨_, hp⟩, ?_, ?_⟩
  · simp [error.Unwrap]
  · simp [errors.Cause]
  · simp [error.Error, String.append_assoc]
  · rw [hp]
    simp [List.countP_cons, Op.isOpen]
  · rw [hp]
    simp [Op.isPoolOrSchema]

/-- C3, evaluated: with a runtime that refuses the connection, `New` returns
no handle and the message `open database: connection refused`. -/
theorem C3_open_failure_witness :
    rtOpenFails.Open (dsn rtOpenFails.Sprintf config0) gormConfig
      = some (error.fundamental "connection refused")
    ∧ (New rtOpenFails world0 ⟨1⟩ (some config0)).2.1.isNone = true
    ∧ (New rtOpenFails world0 ⟨1⟩ (some config0)).2.2
      = errors.Wrap (some (error.fundamental "connection refused")) "open database"
    ∧ (New rtOpenFails world0 ⟨1⟩ (some config0)).1.sqlDB = world0.sqlDB :=
  have h := C3_open_failure_wrapped_no_pool rtOpenFails world0 ⟨1⟩ config0
    (error.fundamental "connection refused") rfl
  ⟨rfl, h.1, h.2.1, h.2.2.2.1⟩

/-! ## The pool of a ready handle (C4) -/

/-- C4: for every configuration, if `New` returns a `nil` error then it
returns a handle, the pool reports 30 as its limit of open connections, 30 as
its limit of idle connections and 60 seconds as the maximum lifetime of a
connection, and the three settings were requested, in this order, after the
pool handle was obtained and before schema reconciliation, which is the last
operation. -/
theorem C4_success_pool_configured (rt : Runtime) (w : World) (logWriter : io.Writer)
    (c : conf.Database) (h : (New rt w logWriter (some c)).2.2 = none) :
    (New rt w logWriter (some c)).2.1.isSome = true
    ∧ (New rt w logWriter (some c)).1.sqlDB.maxOpen = 30
    ∧ (New rt w logWriter (some c)).1.sqlDB.maxIdleConnsLocked = 30
    ∧ (New rt w logWriter (some c)).1.sqlDB.maxLifetime = 60 * time.Second
    ∧ (∃ l d, performed rt w logWriter (some c)
        = [Op.InstallLogger l, Op.Open d gormConfig, Op.DB, Op.SetMaxOpenConns 30,
           Op.SetMaxIdleConns 30, Op.SetConnMaxLifetime (60 * time.Second),
           Op.AutoMigrate [Model.Principal, Model.HostKey]]) := by
  rcases ho : rt.Open (dsn rt.Sprintf c) gormConfig with _ | e
  · rcases hd : rt.DB with _ | e
    · rcases hm : rt.AutoMigrate [Model.Principal, Model.HostKey] with _ | e
      · have hN := New_succeeds rt w logWriter c ho hd hm
        have hp := pool_after_setters w.sqlDB
        refine ⟨by simp [hN], by simp [hN, hp.1], by simp [hN, hp.2.1], ?_,
          installed rt.Env logWriter, dsn rt.Sprintf c, ?_⟩
        · rw [hN]
          simp only [hp.2.2]
          simp [time.Second, time.Millisecond, time.Microsecond, time.Nanosecond]
        · exact performed_eq _ _ _ _ _ (by rw [hN]; rfl)
      · rw [New_migrate_fails rt w logWriter c e ho hd hm] at h
        simp at h
    · rw [New_DB_fails rt w logWriter c e ho hd] at h
      simp at h
  · rw [New_open_fails rt w logWriter c e ho] at h
    simp at h

set_option maxRecDepth 100000 in
/-- C4, evaluated: with a runtime in which every step succeeds, `New` returns
a handle and the pool has the three settings. -/
theorem C4_success_pool_witness :
    (New rtOk world0 ⟨1⟩ (some config0)).2.2 = none
    ∧ (New rtOk world0 ⟨1⟩ (some config0)).2.1.isSome = true
    ∧ (New rtOk world0 ⟨1⟩ (some config0)).1.sqlDB.maxOpen = 30
    ∧ (New rtOk world0 ⟨1⟩ (some config0)).1.sqlDB.maxIdleConnsLocked = 30
    ∧ (New rtOk world0 ⟨1⟩ (some config0)).1.sqlDB.maxLifetime = 60 * time.Second :=
  have h := C4_success_pool_configured rtOk world0 ⟨1⟩ config0 (by decide)
  ⟨by decide, h.1, h.2.1, h.2.2.1, h.2.2.2.1⟩

/-! ## The installed logger (C6) -/

/-- C6: for every configuration, sink and deployment mode, `New` installs a
process-wide logger, as its first operation, whose minimum level is `Warn`
exactly when the deployment mode is production and `Info` for every other
mode; its slow-query threshold is 1000 milliseconds, and the structured logger
under the adapter writes to the given sink at debug level, in every mode. It
stays installed whatever the later steps return. -/
theorem C6_installed_logger_levels (rt : Runtime) (w : World) (logWriter : io.Writer)
    (c : conf.Database) :
    ∃ l : logger.Interface,
      (New rt w logWriter (some c)).1.loggerDefault = some l
      ∧ (performed rt w logWriter (some c)).head? = some (Op.InstallLogger l)
      ∧ (l.Config.LogLevel = logger.LogLevel.Warn ↔ rt.Env = flamego.EnvTypeProd)
      ∧ (l.Config.LogLevel = logger.LogLevel.Info ↔ rt.Env ≠ flamego.EnvTypeProd)
      ∧ l.Config.SlowThreshold = 1000 * time.Millisecond
      ∧ l.Config.SlowThreshold = 1000000000 * time.Nanosecond
      ∧ l.Writer.Logger.o.Level = log.Level.DebugLevel
      ∧ l.Writer.Logger.w = logWriter := by
  refine ⟨installed rt.Env logWriter, ?_, ?_, ?_, ?_, rfl, ?_, rfl, rfl⟩
  · rcases ho : rt.Open (dsn rt.Sprintf c) gormConfig with _ | e
    · rcases hd : rt.DB with _ | e
      · rcases hm : rt.AutoMigrate [Model.Principal, Model.HostKey] with _ | e
        · rw [New_succeeds rt w logWriter c ho hd hm]
        · rw [New_migrate_fails rt w logWriter c e ho hd hm]
      · rw [New_DB_fails rt w logWriter c e ho hd]
    · rw [New_open_fails rt w logWriter c e ho]
  · rcases ho : rt.Open (dsn rt.Sprintf c) gormConfig with _ | e
    · rcases hd : rt.DB with _ | e
      · rcases hm : rt.AutoMigrate [Model.Principal, Model.HostKey] with _ | e
        · rw [performed_eq _ _ _ _ _
            (by rw [New_succeeds rt w logWriter c ho hd hm])]
          rfl
        · rw [performed_eq _ _ _ _ _
            (by rw [New_migrate_fails rt w logWriter c e ho hd hm])]
          rfl
      · rw [performed_eq _ _ _ _ _ (by rw [New_DB_fails rt w logWriter c e ho hd])]
        rfl
    · rw [performed_eq _ _ _ _ _ (by rw [New_open_fails rt w logWriter c e ho])]
      rfl
  · by_cases hp : rt.Env = flamego.EnvTypeProd <;> simp [installed, logger.New, hp]
  · by_cases hp : rt.Env = flamego.EnvTypeProd <;> simp [installed, logger.New, hp]
  · simp [installed, logger.New, time.Millisecond, time.Microsecond, time.Nanosecond]

/-! ## The clock of the handle (C5) -/

/-- C5: for every well-formed reading `t` of the system clock, the clock
function of the handle (`NowFunc`, which is `t.UTC().Truncate(time.Microsecond)`)
returns an instant in UTC whose nanosecond field is a multiple of 1000, not
after `t` and less than one microsecond before it. Applying the function to
its own result changes nothing, and two readings within the same microsecond
(same second, same microsecond of that second) give the same result. -/
theorem C5_NowFunc_utc_microsecond (t : time.Time) (h : t.WellFormed) :
    gormConfig.NowFunc t = t.UTC.Truncate time.Microsecond
    ∧ (gormConfig.NowFunc t).loc = time.Location.UTC
    ∧ (gormConfig.NowFunc t).WellFormed
    ∧ (gormConfig.NowFunc t).nsec % 1000 = 0
    ∧ (gormConfig.NowFunc t).nanos ≤ t.nanos
    ∧ t.nanos - (gormConfig.NowFunc t).nanos < time.Microsecond
    ∧ gormConfig.NowFunc (gormConfig.NowFunc t) = gormConfig.NowFunc t
    ∧ (∀ u : time.Time, u.WellFormed → u.sec = t.sec → u.nsec / 1000 = t.nsec / 1000 →
        gormConfig.NowFunc u = gormConfig.NowFunc t) := by
  have hM : time.Microsecond = 1000 := by decide
  have hg : gormConfig.NowFunc = NowFunc := rfl
  obtain ⟨h0, h1⟩ := h
  have hw : (NowFunc t).WellFormed := by
    rw [NowFunc_eq t ⟨h0, h1⟩]
    constructor <;> simp only <;> omega
  rw [hg]
  refine ⟨rfl, ?_, hw, ?_, ?_, ?_, ?_, ?_⟩
  · rw [NowFunc_eq t ⟨h0, h1⟩]
  · rw [NowFunc_eq t ⟨h0, h1⟩]
    simp only
    omega
  · rw [NowFunc_eq t ⟨h0, h1⟩]
    simp only [time.Time.nanos]
    omega
  · rw [NowFunc_eq t ⟨h0, h1⟩, hM]
    simp only [time.Time.nanos]
    omega
  · rw [NowFunc_eq _ hw, NowFunc_eq t ⟨h0, h1⟩]
    simp only [time.Time.mk.injEq, and_true, true_and]
    omega
  · intro u hu hs hq
    rw [NowFunc_eq u hu, NowFunc_eq t ⟨h0, h1⟩]
    simp only [time.Time.mk.injEq, and_true]
    exact ⟨hs, by omega⟩

/-- C5, evaluated: a reading with 123456789 nanoseconds, a monotonic reading
and the local zone comes back in UTC with 123456000 nanoseconds. -/
theorem C5_NowFunc_witness :
    instant0.WellFormed
    ∧ (gormConfig.NowFunc instant0).loc = time.Location.UTC
    ∧ (gormConfig.NowFunc instant0).nsec % 1000 = 0
    ∧ gormConfig.NowFunc instant0
        = { sec := 63900000000, nsec := 123456000, mono := none, loc := time.Location.UTC } :=
  have hw : instant0.WellFormed := ⟨by decide, by decide⟩
  have h := C5_NowFunc_utc_microsecond instant0 hw
  ⟨hw, h.2.1, h.2.2.2.1, by decide⟩

/-! ## Failures and their stage labels (C7) -/

/-- C7, as amended: for every configuration, `New` returns a handle exactly
when it returns a `nil` error, and every failure of a step comes back with no
handle and with the message made of the stage label, a colon and a space, and
the message of the underlying error. The label is `open database` when the
connection cannot be opened, `get underlying *sql.DB` when the pool handle
cannot be retrieved, and `auto migrate` when schema reconciliation fails; an
error returned for a configuration that is present always has one of these
three forms. -/
theorem C7_failures_carry_stage_label (rt : Runtime) (w : World) (logWriter : io.Writer)
    (c : conf.Database) :
    ((New rt w logWriter (some c)).2.1.isSome = true ↔ (New rt w logWriter (some c)).2.2 = none)
    ∧ (∀ e, rt.Open (dsn rt.Sprintf c) gormConfig = some e →
        (New rt w logWriter (some c)).2.1 = none
        ∧ (New rt w logWriter (some c)).2.2.map error.Error
            = some ("open database" ++ ": " ++ e.Error))
    ∧ (∀ e, rt.Open (dsn rt.Sprintf c) gormConfig = none → rt.DB = some e →
        (New rt w logWriter (some c)).2.1 = none
        ∧ (New rt w logWriter (some c)).2.2.map error.Error
            = some ("get underlying *sql.DB" ++ ": " ++ e.Error))
    ∧ (∀ e, rt.Open (dsn rt.Sprintf c) gormConfig = none → rt.DB = none →
        rt.AutoMigrate [Model.Principal, Model.HostKey] = some e →
        (New rt w logWriter (some c)).2.1 = none
        ∧ (New rt w logWriter (some c)).2.2.map error.Error
            = some ("auto migrate" ++ ": " ++ e.Error))
    ∧ (∀ err, (New rt w logWriter (some c)).2.2 = some err →
        ∃ (label : String) (e : error), label ∈ ["open database", "get underlying *sql.DB", "auto migrate"]
          ∧ err.Error = label ++ ": " ++ e.Error) := by
  rcases ho : rt.Open (dsn rt.Sprintf c) gormConfig with _ | e
  · rcases hd : rt.DB with _ | e
    · rcases hm : rt.AutoMigrate [Model.Principal, Model.HostKey] with _ | e
      · simp [New_succeeds rt w logWriter c ho hd hm]
      · rw [New_migrate_fails rt w logWriter c e ho hd hm]
        refine ⟨by simp, by simp, by simp, ?_, ?_⟩
        · intro e2 _ _ h2
          cases h2
          simp [error.Error, String.append_assoc]
        · intro err herr
          simp only [Option.some.injEq] at herr
          subst herr
          exact ⟨"auto migrate", e, by simp, by simp [error.Error, String.append_assoc]⟩
    · rw [New_DB_fails rt w logWriter c e ho hd]
      refine ⟨by simp, by simp, ?_, by simp, ?_⟩
      · intro e2 _ h2
        cases h2
        simp [error.Error, String.append_assoc]
      · intro err herr
        simp only [Option.some.injEq] at herr
        subst herr
        exact ⟨"get underlying *sql.DB", e, by simp,
          by simp [error.Error, String.append_assoc]⟩
  · rw [New_open_fails rt w logWriter c e ho]
    refine ⟨by simp, ?_, by simp, by simp, ?_⟩
    · intro e2 h2
      cases h2
      simp [error.Error, String.append_assoc]
    · intro err herr
      simp only [Option.some.injEq] at herr
      subst herr
      exact ⟨"open database", e, by simp, by simp [error.Error, String.append_assoc]⟩

/-- C7, evaluated: with a runtime whose schema reconciliation is refused,
`New` returns no handle and the message `auto migrate: permission denied`. -/
theorem C7_failures_witness :
    rtMigrateFails.AutoMigrate [Model.Principal, Model.HostKey]
      = some (error.fundamental "permission denied")
    ∧ (New rtMigrateFails world0 ⟨1⟩ (some config0)).2.1 = none
    ∧ (New rtMigrateFails world0 ⟨1⟩ (some config0)).2.2.map error.Error
        = some ("auto migrate" ++ ": " ++ (error.fundamental "permission denied").Error) :=
  ⟨rfl, (C7_failures_carry_stage_label rtMigrateFails world0 ⟨1⟩ config0).2.2.2.1
    (error.fundamental "permission denied") rfl rfl rfl⟩

set_option maxRecDepth 100000 in
/-- C7 as stated fails: when the pool handle cannot be retrieved (the
connection having been opened), the message of the returned error starts with
the label `get underlying *sql.DB`, not with `get underlying handle`. -/
theorem C7_label_counterexample :
    rtDBFails.Open (dsn rtDBFails.Sprintf config0) gormConfig = none
    ∧ rtDBFails.DB = some (error.fundamental "unsupported driver")
    ∧ (New rtDBFails world0 ⟨1⟩ (some config0)).2.2.map error.Error
        = some "get underlying *sql.DB: unsupported driver"
    ∧ (New rtDBFails world0 ⟨1⟩ (some config0)).2.2.map error.Error
        ≠ some ("get underlying handle" ++ ": "
            ++ (error.fundamental "unsupported driver").Error) := by
  decide

/-! ## The order of the operations (C9) -/

/-- C9: for every configuration and every behaviour of the collaborators, the
operations `New` requests are a prefix of the fixed sequence (install the
process-wide logger, open the connection, get the pool handle, set the limit
of open connections, set the limit of idle connections, set the maximum
lifetime, reconcile the schema for `Principal` then `HostKey`). The call stops
at the first operation that fails: after the open when the open fails, after
the retrieval of the pool handle when that fails, and otherwise it runs the
whole sequence, of which reconciliation is the last. The logger is installed
first and the open comes directly after it. -/
theorem C9_operations_are_a_prefix_in_order (rt : Runtime) (w : World)
    (logWriter : io.Writer) (c : conf.Database) :
    ∃ l : logger.Interface,
      (New rt w logWriter (some c)).1.trace = w.trace ++ performed rt w logWriter (some c)
      ∧ fullSequence l (dsn rt.Sprintf c)
          = [Op.InstallLogger l, Op.Open (dsn rt.Sprintf c) gormConfig, Op.DB,
             Op.SetMaxOpenConns 30, Op.SetMaxIdleConns 30, Op.SetConnMaxLifetime time.Minute,
             Op.AutoMigrate [Model.Principal, Model.HostKey]]
      ∧ (∃ k, performed rt w logWriter (some c) = (fullSequence l (dsn rt.Sprintf c)).take k)
      ∧ (∃ rest, performed rt w logWriter (some c)
          = Op.InstallLogger l :: Op.Open (dsn rt.Sprintf c) gormConfig :: rest)
      ∧ (rt.Open (dsn rt.Sprintf c) gormConfig ≠ none →
          performed rt w logWriter (some c)
            = [Op.InstallLogger l, Op.Open (dsn rt.Sprintf c) gormConfig])
      ∧ (rt.Open (dsn rt.Sprintf c) gormConfig = none → rt.DB ≠ none →
          performed rt w logWriter (some c)
            = [Op.InstallLogger l, Op.Open (dsn rt.Sprintf c) gormConfig, Op.DB])
      ∧ (rt.Open (dsn rt.Sprintf c) gormConfig = none → rt.DB = none →
          performed rt w logWriter (some c) = fullSequence l (dsn rt.Sprintf c)) := by
  refine ⟨installed rt.Env logWriter, ?_⟩
  rcases ho : rt.Open (dsn rt.Sprintf c) gormConfig with _ | e
  · rcases hd : rt.DB with _ | e
    · have hN : (New rt w logWriter (some c)).1.trace
          = w.trace ++ fullSequence (installed rt.Env logWriter) (dsn rt.Sprintf c) := by
        rcases hm : rt.AutoMigrate [Model.Principal, Model.HostKey] with _ | e
        · rw [New_succeeds rt w logWriter c ho hd hm]
        · rw [New_migrate_fails rt w logWriter c e ho hd hm]
      have hp := performed_eq _ _ _ _ _ hN
      rw [hp]
      exact ⟨hN, rfl, ⟨7, rfl⟩, ⟨_, rfl⟩, by simp, by simp, by simp⟩
    · have hN := New_DB_fails rt w logWriter c e ho hd
      have hp := performed_eq rt w logWriter (some c) _ (by rw [hN])
      rw [hp]
      exact ⟨by rw [hN], rfl, ⟨3, rfl⟩, ⟨_, rfl⟩, by simp, fun _ _ => rfl, by simp⟩
  · have hN := New_open_fails rt w logWriter c e ho
    have hp := performed_eq rt w logWriter (some c) _ (by rw [hN])
    rw [hp]
    exact ⟨by rw [hN], rfl, ⟨2, rfl⟩, ⟨_, rfl⟩, fun _ => rfl, by simp, by simp⟩

set_option maxRecDepth 100000 in
/-- C9, evaluated: with a runtime in which the pool handle cannot be
retrieved, exactly three operations are requested. -/
theorem C9_operations_witness :
    rtDBFails.DB ≠ none
    ∧ (performed rtDBFails world0 ⟨1⟩ (some config0)).length = 3 := by
  obtain ⟨l, _, _, _, _, _, h, _⟩ :=
    C9_operations_are_a_prefix_in_order rtDBFails world0 ⟨1⟩ config0
  exact ⟨by decide, by rw [h (by rfl) (by decide)]; rfl⟩

/-! ## The connection descriptor (C8, C10) -/

/-- C8: for every configuration, with a renderer that agrees with
`fmt.Sprintf`, the descriptor `New` composes is the text `user='U'
password='P' host='H' port='N' dbname='D' search_path='public'
application_name='pgrokd' client_encoding=UTF8`, where `U`, `P`, `H` and `D`
are the fields of the configuration, unchanged, and `N` is the port in decimal
(a text of digits, after a minus sign for a negative port, whose value is the
port). That text is what `New` passes to the driver, directly after the
installation of the logger, and what a returned handle holds. -/
theorem C8_descriptor_is_the_interpolated_text (rt : Runtime) (w : World)
    (logWriter : io.Writer) (c : conf.Database) (h : Renders rt.Sprintf) :
    dsn rt.Sprintf c
      = "user='" ++ c.User ++ "' password='" ++ c.Password ++ "' host='" ++ c.Host
          ++ "' port='" ++ String.mk (fmtInteger c.Port) ++ "' dbname='" ++ c.Database
          ++ "' search_path='public' application_name='pgrokd' client_encoding=UTF8"
    ∧ decimalValue (fmtInteger c.Port) = c.Port
    ∧ (∀ ch ∈ fmtInteger c.Port, ch = '-' ∨ ch.isDigit = true)
    ∧ (∃ l rest, performed rt w logWriter (some c)
        = Op.InstallLogger l :: Op.Open (dsn rt.Sprintf c) gormConfig :: rest)
    ∧ (∀ hd, (New rt w logWriter (some c)).2.1 = some hd → hd.DB.dsn = dsn rt.Sprintf c) :=
  ⟨dsn_eq_descriptor rt.Sprintf h c, decimalValue_fmtInteger c.Port, fmtInteger_chars c.Port,
    ⟨_, performed_starts rt w logWriter c⟩, fun hd hh => handle_dsn rt w logWriter c hd hh⟩

set_option maxRecDepth 100000 in
/-- C8, evaluated: for the user `pgrok`, the password `s3cret`, the host
`localhost`, the port 5432 and the database `pgrokd`. -/
theorem C8_descriptor_witness :
    Renders rtOk.Sprintf
    ∧ dsn rtOk.Sprintf config0
        = "user='pgrok' password='s3cret' host='localhost' port='5432' dbname='pgrokd' search_path='public' application_name='pgrokd' client_encoding=UTF8" :=
  ⟨renders_sprintf0,
    (C8_descriptor_is_the_interpolated_text rtOk world0 ⟨1⟩ config0 renders_sprintf0).1.trans
      (by decide)⟩

/-- C10: with a renderer that agrees with `fmt.Sprintf`, two configurations
whose user, password, host and database name contain no apostrophe and for
which `New` composes the same descriptor have the same user, password, host,
port and database name. -/
theorem C10_descriptor_injective_without_quotes (rt : Runtime) (h : Renders rt.Sprintf)
    (c1 c2 : conf.Database) (h1 : c1.QuoteFree) (h2 : c2.QuoteFree)
    (heq : dsn rt.Sprintf c1 = dsn rt.Sprintf c2) :
    c1.User = c2.User ∧ c1.Password = c2.Password ∧ c1.Host = c2.Host
    ∧ c1.Port = c2.Port ∧ c1.Database = c2.Database := by
  rw [dsn_eq_descriptor _ h, dsn_eq_descriptor _ h] at heq
  have := descriptor_injective c1 c2 h1 h2 heq
  subst this
  exact ⟨rfl, rfl, rfl, rfl, rfl⟩

set_option maxRecDepth 100000 in
/-- C10, evaluated: two configurations without apostrophes, written
differently, with the same descriptor. -/
theorem C10_descriptor_injective_witness :
    config0.QuoteFree ∧ ({ config1 with Host := "localhost", Port := 5432, User := "pgrok",
                                         Password := "s3cret" } : conf.Database).QuoteFree
    ∧ config0.Password
        = ({ config1 with Host := "localhost", Port := 5432, User := "pgrok",
                          Password := "s3cret" } : conf.Database).Password :=
  ⟨by decide, by decide,
    (C10_descriptor_injective_without_quotes rtOk renders_sprintf0 config0
      { config1 with Host := "localhost", Port := 5432, User := "pgrok", Password := "s3cret" }
      (by decide) (by decide) (by decide)).2.1⟩

end Pgrok
